import Mathlib

/-!
Shallow embedding of the order lifecycle and inventory subsystem of the
E-commerce backend: the order status state machine
(`app/domain/orders/value_objects.py`), the order aggregate with its
computed totals (`app/domain/orders/entities.py`), the order workflow
service (`app/services/order_service.py`), the atomic stock update of the
product repository (`app/infrastructure/repositories/product_repository.py`)
and the sales aggregation of the order repository
(`app/infrastructure/repositories/order_repository.py`).

Modelling conventions:
* Python `Decimal` money amounts are embedded as `ℚ` (exact arithmetic).
* Timestamps (`datetime`) are embedded as `ℕ`; `datetime.utcnow()` becomes
  an explicit `now : ℕ` parameter.
* The MongoDB `products` collection (keyed by unique `_id`) is a partial
  map `String → Option Product`; an id whose `ObjectId` parse fails is an
  id matching no document.
* The MongoDB `orders` collection is an association list of `(id, Order)`
  pairs; `find_one` takes the first entry with a matching id, and
  `update_one` updates the first matching entry.
* Raised exceptions become `Except AppError` outcomes; because the Python
  services mutate the database through repository calls that are not
  rolled back when an exception is raised later, each service operation
  returns the resulting database state together with the outcome.
* Pydantic validation errors (field constraint violations such as
  `min_length`/`ge`) are a distinct `AppError.pydantic` constructor, since
  `pydantic.ValidationError` is unrelated to the application's
  `ValidationError`.
-/

namespace ECom

/-- Order lifecycle status, from `OrderStatus` in
`app/domain/orders/value_objects.py`. -/
inductive OrderStatus : Type
  | processing
  | confirmed
  | shipped
  | outForDelivery
  | delivered
  | cancelled
  | refunded
  deriving DecidableEq

/-- The `valid_transitions` dict literal built inside
`OrderStatus.can_transition_to`. -/
def OrderStatus.valid_transitions : OrderStatus → List OrderStatus
  | .processing => [.confirmed, .cancelled]
  | .confirmed => [.shipped, .cancelled]
  | .shipped => [.outForDelivery, .cancelled]
  | .outForDelivery => [.delivered]
  | .delivered => [.refunded]
  | .cancelled => []
  | .refunded => []

/-- `OrderStatus.can_transition_to(current, new)`:
`new in valid_transitions.get(current, [])`. -/
def OrderStatus.can_transition_to (current new : OrderStatus) : Bool :=
  decide (new ∈ OrderStatus.valid_transitions current)

/-- `OrderStatus.is_final`. -/
def OrderStatus.is_final (s : OrderStatus) : Bool :=
  decide (s ∈ [OrderStatus.delivered, OrderStatus.cancelled, OrderStatus.refunded])

/-- `OrderStatus.is_cancellable`. -/
def OrderStatus.is_cancellable (s : OrderStatus) : Bool :=
  decide (s ∈ [OrderStatus.processing, OrderStatus.confirmed, OrderStatus.shipped])

/-- The fixed transition table exactly as the spec (§4.1) enumerates it,
written independently of the source for the refinement comparison of C1:
the pairs (current, target) the spec allows. -/
def specTransitionTable : List (OrderStatus × OrderStatus) :=
  [(.processing, .confirmed), (.processing, .cancelled),
   (.confirmed, .shipped), (.confirmed, .cancelled),
   (.shipped, .outForDelivery), (.shipped, .cancelled),
   (.outForDelivery, .delivered),
   (.delivered, .refunded)]

/-- Application error taxonomy from `app/core/exceptions.py`, restricted to
the errors the order workflow raises, plus `pydantic` for field-constraint
violations raised by entity construction. -/
inductive AppError : Type
  | notFound (message : String)
  | validation (message : String)
  | forbidden (message : String)
  | pydantic (message : String)
  deriving DecidableEq

/-- Whether an outcome is an application `ValidationError`. -/
def AppError.isValidation : AppError → Bool
  | .validation _ => true
  | _ => false

/-- Whether an outcome is a `NotFoundError`. -/
def AppError.isNotFound : AppError → Bool
  | .notFound _ => true
  | _ => false

/-- Whether an `Except` outcome is a success. -/
def resultIsOk : Except AppError α → Bool
  | .ok _ => true
  | .error _ => false

/-- Whether an `Except` outcome is an application `ValidationError`. -/
def resultIsValidation : Except AppError α → Bool
  | .error e => e.isValidation
  | .ok _ => false

/-- Whether an `Except` outcome is a `NotFoundError`. -/
def resultIsNotFound : Except AppError α → Bool
  | .error e => e.isNotFound
  | .ok _ => false

/-- `ShippingInfo` embedded entity. -/
structure ShippingInfo : Type where
  address : String
  city : String
  country : String
  postal_code : String
  phone_no : String
  deriving DecidableEq

/-- `PaymentInfo` embedded entity. -/
structure PaymentInfo : Type where
  id : String
  status : String
  deriving DecidableEq

/-- Pydantic's `str_strip_whitespace=True` (from `BaseEntity.model_config`):
leading and trailing whitespace is removed from string fields before
constraints are checked. -/
def stripStr (s : String) : String :=
  ⟨((s.data.dropWhile Char.isWhitespace).reverse.dropWhile
      Char.isWhitespace).reverse⟩

/-- The `shipping_info: dict` argument of `OrderService.create_order`:
the raw strings before pydantic validation. -/
structure ShippingInput : Type where
  address : String
  city : String
  country : String
  postal_code : String
  phone_no : String
  deriving DecidableEq

/-- Pydantic construction of a `ShippingInfo`: every field is stripped
(`str_strip_whitespace`) and must satisfy `min_length=1`, checked in
declaration order. -/
def ShippingInfo.construct (address city country postal_code phone_no : String) :
    Except AppError ShippingInfo :=
  if (stripStr address).length < 1 then
    .error (.pydantic "address: String should have at least 1 character")
  else if (stripStr city).length < 1 then
    .error (.pydantic "city: String should have at least 1 character")
  else if (stripStr country).length < 1 then
    .error (.pydantic "country: String should have at least 1 character")
  else if (stripStr postal_code).length < 1 then
    .error (.pydantic "postal_code: String should have at least 1 character")
  else if (stripStr phone_no).length < 1 then
    .error (.pydantic "phone_no: String should have at least 1 character")
  else
    .ok { address := stripStr address, city := stripStr city,
          country := stripStr country, postal_code := stripStr postal_code,
          phone_no := stripStr phone_no }

/-- The entity a valid shipping dict turns into (all fields stripped). -/
def ShippingInput.toShippingInfo (s : ShippingInput) : ShippingInfo :=
  { address := stripStr s.address, city := stripStr s.city,
    country := stripStr s.country, postal_code := stripStr s.postal_code,
    phone_no := stripStr s.phone_no }

/-- All five shipping fields are non-empty after stripping. -/
def ShippingInput.fields_nonempty (s : ShippingInput) : Bool :=
  decide (1 ≤ (stripStr s.address).length) &&
  decide (1 ≤ (stripStr s.city).length) &&
  decide (1 ≤ (stripStr s.country).length) &&
  decide (1 ≤ (stripStr s.postal_code).length) &&
  decide (1 ≤ (stripStr s.phone_no).length)

/-- `OrderItem` entity: a snapshot of the product at order time. -/
structure OrderItem : Type where
  product : String
  name : String
  price : ℚ
  quantity : ℕ
  image : String
  deriving DecidableEq

/-- `OrderItem.subtotal`: `self.price * self.quantity`. -/
def OrderItem.subtotal (item : OrderItem) : ℚ :=
  item.price * item.quantity

/-- Pydantic construction of an `OrderItem`.  The `price` field is
declared `int`: the before-validator yields a `Decimal`, and pydantic's
lax int coercion rejects any fractional value, so a price must be an
integer; then the field constraints `price ≥ 0` and `quantity ≥ 1`
apply. -/
def OrderItem.construct (product name : String) (price : ℚ) (quantity : ℕ)
    (image : String) : Except AppError OrderItem :=
  if price.den ≠ 1 then
    .error (.pydantic "price: Input should be a valid integer")
  else if price < 0 then
    .error (.pydantic "price: Input should be greater than or equal to 0")
  else if quantity < 1 then
    .error (.pydantic "quantity: Input should be greater than or equal to 1")
  else
    .ok { product := product, name := name, price := price,
          quantity := quantity, image := image }

/-- `Order` entity (`app/domain/orders/entities.py`). `created_at` comes
from `BaseEntity`. -/
structure Order : Type where
  user : String
  shipping_info : ShippingInfo
  order_items : List OrderItem
  items_price : ℚ
  tax_price : ℚ
  shipping_price : ℚ
  total_price : ℚ
  payment_info : Option PaymentInfo
  paid_at : Option ℕ
  delivered_at : Option ℕ
  order_status : OrderStatus
  created_at : ℕ
  deriving DecidableEq

/-- `sum(item.subtotal for item in order_items)`. -/
def itemsSubtotalSum (items : List OrderItem) : ℚ :=
  (items.map OrderItem.subtotal).sum

/-- The `calculate_totals` model validator (`mode="after"`): recompute
`items_price` from the items when the item list is non-empty (Python
truthiness of a list), then always recompute `total_price`. -/
def Order.calculate_totals (o : Order) : Order :=
  let o1 := if o.order_items.isEmpty then o
    else { o with items_price := itemsSubtotalSum o.order_items }
  { o1 with total_price := o1.items_price + o1.tax_price + o1.shipping_price }

/-- Pydantic construction of an `Order`: field constraints in declaration
order (`order_items` has `min_length=1`, the four price fields have
`ge=0`), then the `calculate_totals` model validator. -/
def Order.construct (user : String) (shipping_info : ShippingInfo)
    (order_items : List OrderItem)
    (items_price tax_price shipping_price total_price : ℚ)
    (payment_info : Option PaymentInfo) (paid_at delivered_at : Option ℕ)
    (order_status : OrderStatus) (created_at : ℕ) : Except AppError Order :=
  if order_items.length < 1 then
    .error (.pydantic "order_items: List should have at least 1 item")
  else if items_price < 0 then
    .error (.pydantic "items_price: Input should be greater than or equal to 0")
  else if tax_price < 0 then
    .error (.pydantic "tax_price: Input should be greater than or equal to 0")
  else if shipping_price < 0 then
    .error (.pydantic "shipping_price: Input should be greater than or equal to 0")
  else if total_price < 0 then
    .error (.pydantic "total_price: Input should be greater than or equal to 0")
  else
    .ok (Order.calculate_totals
      { user := user, shipping_info := shipping_info,
        order_items := order_items, items_price := items_price,
        tax_price := tax_price, shipping_price := shipping_price,
        total_price := total_price, payment_info := payment_info,
        paid_at := paid_at, delivered_at := delivered_at,
        order_status := order_status, created_at := created_at })

/-- `Product` entity, restricted to the fields the order workflow reads:
`name` and `stock` (a non-negative integer, `Field(ge=0)`). -/
structure Product : Type where
  name : String
  stock : ℕ
  deriving DecidableEq

/-- The `products` MongoDB collection, keyed by unique `_id`. -/
abbrev ProductMap : Type := String → Option Product

/-- `MongoProductRepository.update_stock(product_id, quantity_change)`:
`update_one` with filter
`{"_id": id, "stock": {"$gte": -quantity_change if quantity_change < 0 else 0}}`
and update `{"$inc": {"stock": quantity_change}}`; returns
`modified_count > 0`.  A document is modified only when the filter matches
and the increment actually changes it (`$inc` by `0` leaves
`modified_count` at `0`). -/
def update_stock (products : ProductMap) (product_id : String)
    (quantity_change : ℤ) : ProductMap × Bool :=
  match products product_id with
  | none => (products, false)
  | some p =>
    if (if quantity_change < 0 then -quantity_change else 0) ≤ (p.stock : ℤ) then
      if quantity_change = 0 then
        (products, false)
      else
        (fun pid => if pid = product_id then
            some { p with stock := ((p.stock : ℤ) + quantity_change).toNat }
          else products pid,
         true)
    else
      (products, false)

/-- The `orders` MongoDB collection: documents with their ids. -/
abbrev OrderList : Type := List (String × Order)

/-- `find_one({"_id": order_id})`: first document with the given id. -/
def findOrder : OrderList → String → Option Order
  | [], _ => none
  | (k, o) :: rest, order_id =>
    if k = order_id then some o else findOrder rest order_id

/-- The `$set` document built by `MongoOrderRepository.update_status`:
always sets `order_status`; additionally sets `delivered_at` when the new
status is `DELIVERED`. -/
def Order.set_status_doc (o : Order) (status : OrderStatus) (now : ℕ) : Order :=
  if status = OrderStatus.delivered then
    { o with order_status := status, delivered_at := some now }
  else
    { o with order_status := status }

/-- `MongoOrderRepository.update_status`: `update_one` on the first
document with the given id. -/
def repo_update_status : OrderList → String → OrderStatus → ℕ → OrderList
  | [], _, _, _ => []
  | (k, o) :: rest, order_id, status, now =>
    if k = order_id then
      (k, Order.set_status_doc o status now) :: rest
    else
      (k, o) :: repo_update_status rest order_id status now

/-- The database state the order workflow touches. -/
structure DB : Type where
  products : ProductMap
  orders : OrderList

/-- One entry of the `order_items: List[dict]` argument of
`OrderService.create_order`. -/
structure CreateItem : Type where
  product : String
  name : String
  price : ℚ
  quantity : ℕ
  image : String
  deriving DecidableEq

/-- The validation loop at the top of `OrderService.create_order`: for each
item, load the product; raise `ValidationError` if missing; raise
`ValidationError` if `product.stock < item["quantity"]`. -/
def validate_stock (products : ProductMap) : List CreateItem → Except AppError Unit
  | [] => .ok ()
  | item :: rest =>
    match products item.product with
    | none => .error (.validation ("Product " ++ item.product ++ " not found"))
    | some product =>
      if product.stock < item.quantity then
        .error (.validation ("Insufficient stock for " ++ product.name))
      else
        validate_stock products rest

/-- The `OrderItem(...)` constructions in `OrderService.create_order`
(a list comprehension; the first invalid item raises). -/
def build_order_items : List CreateItem → Except AppError (List OrderItem)
  | [] => .ok []
  | item :: rest =>
    match OrderItem.construct item.product item.name item.price item.quantity
        item.image with
    | .error e => .error e
    | .ok oi =>
      match build_order_items rest with
      | .error e => .error e
      | .ok ois => .ok (oi :: ois)

/-- The stock-reduction loop after order persistence: for each item,
`update_stock(item["product"], -item["quantity"])`, return value ignored. -/
def reduce_stock (products : ProductMap) (items : List CreateItem) : ProductMap :=
  items.foldl
    (fun ps item => (update_stock ps item.product (-(item.quantity : ℤ))).1)
    products

/-- The stock-restoration loop of `cancel_order`: for each order item,
`update_stock(item.product, item.quantity)`, return value ignored. -/
def restore_stock (products : ProductMap) (items : List OrderItem) : ProductMap :=
  items.foldl
    (fun ps item => (update_stock ps item.product (item.quantity : ℤ)).1)
    products

/-- `OrderService.create_order`.  `new_order_id` models the `_id` MongoDB
generates on insert; `now` models `datetime.utcnow()`.  After the
stock-validation loop the service constructs the `ShippingInfo(...)`
entity from the raw dict (pydantic may reject it), then the `OrderItem`
list, then the order; the `Order(...)` call passes no `total_price`, so
the field default `0` applies. -/
def create_order (db : DB) (user_id : String) (shipping_info : ShippingInput)
    (order_items : List CreateItem) (items_price tax_price shipping_price : ℚ)
    (payment_info : PaymentInfo) (new_order_id : String) (now : ℕ) :
    DB × Except AppError Order :=
  match validate_stock db.products order_items with
  | .error e => (db, .error e)
  | .ok _ =>
    match ShippingInfo.construct shipping_info.address shipping_info.city
        shipping_info.country shipping_info.postal_code
        shipping_info.phone_no with
    | .error e => (db, .error e)
    | .ok shipping =>
      match build_order_items order_items with
      | .error e => (db, .error e)
      | .ok items =>
        match Order.construct user_id shipping items items_price tax_price
            shipping_price 0 (some payment_info)
            (if payment_info.status = "succeeded" then some now else none)
            none OrderStatus.processing now with
        | .error e => (db, .error e)
        | .ok order =>
          ({ products := reduce_stock db.products order_items,
             orders := (new_order_id, order) :: db.orders },
           .ok order)

/-- `OrderService.cancel_order`: load the order scoped to the user, check
`can_cancel`, restore stock, set status to `CANCELLED`, re-fetch. -/
def cancel_order (db : DB) (order_id user_id : String) (now : ℕ) :
    DB × Except AppError Order :=
  match findOrder db.orders order_id with
  | none => (db, .error (.notFound "Order not found"))
  | some order =>
    if order.user ≠ user_id then
      (db, .error (.forbidden "Access denied"))
    else if ¬ order.order_status.is_cancellable then
      (db, .error (.validation "Order cannot be cancelled"))
    else
      let products := restore_stock db.products order.order_items
      let orders := repo_update_status db.orders order_id OrderStatus.cancelled now
      match findOrder orders order_id with
      | none => ({ products := products, orders := orders },
                 .error (.notFound "Order not found"))
      | some updated => ({ products := products, orders := orders }, .ok updated)

/-- `OrderService.update_order_status`: load the order, check the
transition, persist the new status, re-fetch. -/
def update_order_status (db : DB) (order_id : String) (status : OrderStatus)
    (now : ℕ) : DB × Except AppError Order :=
  match findOrder db.orders order_id with
  | none => (db, .error (.notFound "Order not found"))
  | some order =>
    if ¬ OrderStatus.can_transition_to order.order_status status then
      (db, .error (.validation "Cannot transition"))
    else
      let orders := repo_update_status db.orders order_id status now
      match findOrder orders order_id with
      | none => ({ db with orders := orders },
                 .error (.notFound "Order not found"))
      | some updated => ({ db with orders := orders }, .ok updated)

/-- The result document of `MongoOrderRepository.get_sales_stats`. -/
structure SalesStats : Type where
  total_orders : ℕ
  total_sales : ℚ
  average_order_value : ℚ
  delivered_orders : ℕ
  processing_orders : ℕ
  cancelled_orders : ℕ
  deriving DecidableEq

/-- The `$match` stage on `created_at` built from the optional bounds
(`$gte start_date`, `$lte end_date`; absent bounds match everything). -/
def created_in_range (created_at : ℕ) (start_date end_date : Option ℕ) : Bool :=
  (match start_date with
   | none => true
   | some s => decide (s ≤ created_at)) &&
  (match end_date with
   | none => true
   | some e => decide (created_at ≤ e))

/-- `MongoOrderRepository.get_sales_stats`: match by date range, `$group`
over the matched documents (a `$group` over no input documents yields no
result, in which case the Python returns the all-zero dict). -/
def get_sales_stats (orders : OrderList) (start_date end_date : Option ℕ) :
    SalesStats :=
  match orders.filter
      (fun e => created_in_range e.2.created_at start_date end_date) with
  | [] =>
    { total_orders := 0, total_sales := 0, average_order_value := 0,
      delivered_orders := 0, processing_orders := 0, cancelled_orders := 0 }
  | matched =>
    { total_orders := matched.length
      total_sales := (matched.map (fun e => e.2.total_price)).sum
      average_order_value :=
        (matched.map (fun e => e.2.total_price)).sum / (matched.length : ℚ)
      delivered_orders :=
        (matched.filter
          (fun e => decide (e.2.order_status = OrderStatus.delivered))).length
      processing_orders :=
        (matched.filter
          (fun e => decide (e.2.order_status = OrderStatus.processing))).length
      cancelled_orders :=
        (matched.filter
          (fun e => decide (e.2.order_status = OrderStatus.cancelled))).length }

section Lemmas

/-- `update_stock` never changes the entry of a different product id. -/
theorem update_stock_other (products : ProductMap) (pid : String) (delta : ℤ)
    (q : String) (hq : q ≠ pid) :
    (update_stock products pid delta).1 q = products q := by
  unfold update_stock
  cases hp : products pid with
  | none => rfl
  | some p =>
    dsimp only
    split_ifs <;> simp [hq]

/-- `update_stock` with a sufficient decrement: the guard passes and the
stock is decreased by exactly the requested amount. -/
theorem update_stock_dec (products : ProductMap) (pid : String) (p : Product)
    (qty : ℕ) (hp : products pid = some p) (hle : qty ≤ p.stock) :
    (update_stock products pid (-(qty : ℤ))).1 pid
      = some { p with stock := p.stock - qty } := by
  unfold update_stock
  rw [hp]
  dsimp only
  rcases Nat.eq_zero_or_pos qty with hq | hq
  · subst hq
    simp [hp]
  · rw [if_pos (show -(qty : ℤ) < 0 by omega)]
    rw [if_pos (show -(-(qty : ℤ)) ≤ (p.stock : ℤ) by omega)]
    rw [if_neg (show ¬(-(qty : ℤ) = 0) by omega)]
    dsimp only
    rw [if_pos rfl]
    have hstock : ((p.stock : ℤ) + -(qty : ℤ)).toNat = p.stock - qty := by omega
    rw [hstock]

/-- `update_stock` with an increment: the guard always passes and the
stock is increased by exactly the requested amount. -/
theorem update_stock_inc (products : ProductMap) (pid : String) (p : Product)
    (qty : ℕ) (hp : products pid = some p) :
    (update_stock products pid (qty : ℤ)).1 pid
      = some { p with stock := p.stock + qty } := by
  unfold update_stock
  rw [hp]
  dsimp only
  rcases Nat.eq_zero_or_pos qty with hq | hq
  · subst hq
    simp [hp]
  · rw [if_neg (show ¬((qty : ℤ) < 0) by omega)]
    rw [if_pos (show (0 : ℤ) ≤ (p.stock : ℤ) by omega)]
    rw [if_neg (show ¬((qty : ℤ) = 0) by omega)]
    dsimp only
    rw [if_pos rfl]
    have hstock : ((p.stock : ℤ) + (qty : ℤ)).toNat = p.stock + qty := by omega
    rw [hstock]

end Lemmas

/-- C1: for every pair of order statuses, `can_transition_to` returns true
exactly when the pair is in the fixed transition table of §4.1
(Processing → {Confirmed, Cancelled}, Confirmed → {Shipped, Cancelled},
Shipped → {OutForDelivery, Cancelled}, OutForDelivery → {Delivered},
Delivered → {Refunded}, Cancelled → {}, Refunded → {}), and false for every
pair not listed; as a pure function it has no side effects. -/
theorem c1_can_transition_matches_table (current target : OrderStatus) :
    OrderStatus.can_transition_to current target = true ↔
      (current, target) ∈ specTransitionTable := by
  cases current <;> cases target <;> decide

/-- C10: constructing an `Order` with an empty `order_items` list is
rejected at construction time (pydantic `min_length=1`), whatever the
other arguments are, so no persisted or returned order has an empty item
list. -/
theorem c10_empty_order_items_rejected (user : String) (ship : ShippingInfo)
    (ip tp sp tot : ℚ) (pinfo : Option PaymentInfo) (pa da : Option ℕ)
    (st : OrderStatus) (ca : ℕ) :
    Order.construct user ship [] ip tp sp tot pinfo pa da st ca
      = .error (.pydantic "order_items: List should have at least 1 item") := rfl

/-- C6: for every order at creation time (i.e. every order that pydantic
construction accepts), `items_price` equals the sum over the order items
of price times quantity, and `total_price` equals
`items_price + tax_price + shipping_price`, in exact arithmetic. -/
theorem c6_order_totals (user : String) (ship : ShippingInfo)
    (items : List OrderItem) (ip tp sp tot : ℚ) (pinfo : Option PaymentInfo)
    (pa da : Option ℕ) (st : OrderStatus) (ca : ℕ) (o : Order)
    (h : Order.construct user ship items ip tp sp tot pinfo pa da st ca = .ok o) :
    o.items_price = itemsSubtotalSum o.order_items ∧
    o.total_price = o.items_price + o.tax_price + o.shipping_price := by
  unfold Order.construct at h
  split_ifs at h with h1 h2 h3 h4 h5
  rw [Except.ok.injEq] at h
  subst h
  have hne : items.isEmpty = false := by
    cases items with
    | nil => exact absurd (by simp) h1
    | cons a l => rfl
  constructor
  · simp [Order.calculate_totals, hne]
  · simp [Order.calculate_totals, hne]

/-- Sample shipping data used by concrete witnesses. -/
def sampleShipping : ShippingInfo :=
  { address := "1 Main St", city := "Springfield", country := "US",
    postal_code := "11111", phone_no := "555" }

/-- Sample raw shipping dict used by concrete witnesses (all fields
non-empty after stripping). -/
def sampleShippingInput : ShippingInput :=
  { address := "1 Main St", city := "Springfield", country := "US",
    postal_code := "11111", phone_no := "555" }

/-- Sample payment data used by concrete witnesses. -/
def samplePayment : PaymentInfo :=
  { id := "pay1", status := "succeeded" }

/-- Sample order item used by concrete witnesses. -/
def sampleOrderItem : OrderItem :=
  { product := "p1", name := "Widget", price := 5, quantity := 2, image := "img" }

/-- C6 witness order: the value `Order.construct` produces for the sample
arguments (the caller-supplied `items_price` of `999` is overwritten with
the item subtotal sum `5 * 2 = 10` and `total_price` with `10 + 1 + 2`). -/
def c6Order : Order :=
  { user := "u1", shipping_info := sampleShipping,
    order_items := [sampleOrderItem],
    items_price := itemsSubtotalSum [sampleOrderItem], tax_price := 1,
    shipping_price := 2,
    total_price := itemsSubtotalSum [sampleOrderItem] + 1 + 2,
    payment_info := none, paid_at := none, delivered_at := none,
    order_status := .processing, created_at := 7 }

/-- C6 witness: the totals invariant evaluated on a concrete constructed
order. -/
theorem c6_order_totals_witness :
    c6Order.items_price = itemsSubtotalSum c6Order.order_items ∧
    c6Order.total_price
      = c6Order.items_price + c6Order.tax_price + c6Order.shipping_price :=
  c6_order_totals "u1" sampleShipping [sampleOrderItem] 999 1 2 0 none none
    none .processing 7 c6Order (by rfl)

/-- C8: `get_sales_stats` over date bounds matching no orders (including
over an empty order set) does not fail and returns a result whose
`total_orders`, `total_sales`, `average_order_value`, `delivered_orders`,
`processing_orders` and `cancelled_orders` are all `0`. -/
theorem c8_sales_stats_no_match (orders : OrderList) (s e : Option ℕ)
    (h : ∀ entry ∈ orders, created_in_range entry.2.created_at s e = false) :
    get_sales_stats orders s e =
      { total_orders := 0, total_sales := 0, average_order_value := 0,
        delivered_orders := 0, processing_orders := 0,
        cancelled_orders := 0 } := by
  have hf : orders.filter
      (fun x => created_in_range x.2.created_at s e) = [] := by
    rw [List.filter_eq_nil_iff]
    intro a ha
    simp [h a ha]
  unfold get_sales_stats
  rw [hf]

/-- Sample order (status Processing, created at time 100) used by concrete
witnesses. -/
def sampleOrder : Order :=
  { user := "u1", shipping_info := sampleShipping,
    order_items := [sampleOrderItem], items_price := 10, tax_price := 0,
    shipping_price := 0, total_price := 10, payment_info := none,
    paid_at := none, delivered_at := none, order_status := .processing,
    created_at := 100 }

/-- C8 witness: a one-order set whose creation time lies outside the
queried range yields the all-zero statistics. -/
theorem c8_sales_stats_no_match_witness :
    get_sales_stats [("o1", sampleOrder)] (some 0) (some 50) =
      { total_orders := 0, total_sales := 0, average_order_value := 0,
        delivered_orders := 0, processing_orders := 0,
        cancelled_orders := 0 } :=
  c8_sales_stats_no_match [("o1", sampleOrder)] (some 0) (some 50) (by decide)

/-- An item that fails the stock-validation pass of `create_order`: its
product is missing, or the product's stock is strictly below the
requested quantity. -/
def stock_check_fails (products : ProductMap) (item : CreateItem) : Bool :=
  match products item.product with
  | none => true
  | some p => decide (p.stock < item.quantity)

/-- If some item fails the stock check, the validation loop raises an
application `ValidationError`. -/
theorem validate_stock_fails (products : ProductMap) (items : List CreateItem)
    (h : ∃ item ∈ items, stock_check_fails products item = true) :
    ∃ msg, validate_stock products items = .error (.validation msg) := by
  induction items with
  | nil =>
    rcases h with ⟨item, hmem, _⟩
    cases hmem
  | cons i rest ih =>
    unfold validate_stock
    cases hp : products i.product with
    | none => exact ⟨_, rfl⟩
    | some p =>
      dsimp only
      by_cases hlt : p.stock < i.quantity
      · rw [if_pos hlt]
        exact ⟨_, rfl⟩
      · rw [if_neg hlt]
        apply ih
        rcases h with ⟨item, hmem, hfail⟩
        rcases List.mem_cons.mp hmem with rfl | hmem'
        · unfold stock_check_fails at hfail
          rw [hp] at hfail
          simp at hfail
          exact absurd hfail hlt
        · exact ⟨item, hmem', hfail⟩

/-- Product map for the C2 counterexample: no products exist. -/
def c2Products : ProductMap := fun _ => none

/-- The single requested item of the C2 counterexample. -/
def c2Item : CreateItem :=
  { product := "p1", name := "Widget", price := 5, quantity := 1, image := "img" }

/-- C2 counterexample: `create_order` for a product that does not exist
fails with the application `ValidationError`
(`"Product {id} not found"`), not with `NotFoundError` as the claim
states. -/
theorem c2_counterexample :
    resultIsValidation
      (create_order ⟨c2Products, []⟩ "u1" sampleShippingInput [c2Item] 5 0 0
        samplePayment "o1" 0).2 = true ∧
    resultIsNotFound
      (create_order ⟨c2Products, []⟩ "u1" sampleShippingInput [c2Item] 5 0 0
        samplePayment "o1" 0).2 = false := by
  decide

/-- C2 amended: for every `create_order` call in which some requested
item's product does not exist or has stock strictly below the requested
quantity, the call fails with the application `ValidationError` (for a
missing product too, not `NotFoundError`), and the failure occurs before
any mutation: every product's stock is unchanged and no order is
persisted. -/
theorem c2_create_order_validation_failure (db : DB) (user_id : String)
    (ship : ShippingInput) (items : List CreateItem) (ip tp sp : ℚ)
    (pay : PaymentInfo) (oid : String) (now : ℕ)
    (h : ∃ item ∈ items, stock_check_fails db.products item = true) :
    (create_order db user_id ship items ip tp sp pay oid now).1 = db ∧
    ∃ msg, (create_order db user_id ship items ip tp sp pay oid now).2
      = .error (.validation msg) := by
  obtain ⟨msg, hmsg⟩ := validate_stock_fails db.products items h
  unfold create_order
  rw [hmsg]
  exact ⟨rfl, msg, rfl⟩

/-- Database for the C2 witness. -/
def c2WitnessDb : DB := ⟨c2Products, []⟩

/-- C2 witness: the amended theorem applied to the concrete call whose
product is missing. -/
theorem c2_create_order_validation_failure_witness :
    (create_order c2WitnessDb "u1" sampleShippingInput [c2Item] 5 0 0
        samplePayment "o1" 0).1 = c2WitnessDb ∧
    ∃ msg, (create_order c2WitnessDb "u1" sampleShippingInput [c2Item] 5 0 0
        samplePayment "o1" 0).2 = .error (.validation msg) :=
  c2_create_order_validation_failure c2WitnessDb "u1" sampleShippingInput [c2Item]
    5 0 0 samplePayment "o1" 0 (by decide)

/-- Modelled from the spec's words, for the C5 comparison only: "the
adjustment would make stock negative" (a missing product has no stock to
make negative). -/
def spec_would_go_negative (products : ProductMap) (product_id : String)
    (delta : ℤ) : Bool :=
  match products product_id with
  | none => false
  | some p => decide ((p.stock : ℤ) + delta < 0)

/-- C5 counterexample: for a product id that matches no document,
`update_stock` returns false even for a positive delta, although the
adjustment would not make any stock negative — so "false iff the
adjustment would make stock negative" fails, as does "positive deltas
always succeed". -/
theorem c5_counterexample :
    (update_stock (fun _ => none) "p1" 1).2 = false ∧
    spec_would_go_negative (fun _ => none) "p1" 1 = false := by
  decide

/-- C5 amended: for every id of an existing product and every nonzero
delta, `update_stock` returns false iff applying the delta would make the
product's stock negative; in particular every positive nonzero delta (the
stock restoration performed during cancellation) succeeds.  (A zero delta
leaves the document unmodified, so `modified_count` is `0` and the call
also returns false.) -/
theorem c5_update_stock_guard (products : ProductMap) (pid : String)
    (delta : ℤ) (p : Product) (hp : products pid = some p) (hd : delta ≠ 0) :
    ((update_stock products pid delta).2 = false ↔ (p.stock : ℤ) + delta < 0) ∧
    (0 < delta → (update_stock products pid delta).2 = true) := by
  have key : (update_stock products pid delta).2
      = decide (0 ≤ (p.stock : ℤ) + delta) := by
    unfold update_stock
    rw [hp]
    dsimp only
    by_cases hneg : delta < 0
    · rw [if_pos hneg]
      by_cases hg : -delta ≤ (p.stock : ℤ)
      · rw [if_pos hg, if_neg hd]
        exact (decide_eq_true (by omega)).symm
      · rw [if_neg hg]
        exact (decide_eq_false (by omega)).symm
    · rw [if_neg hneg]
      rw [if_pos (show (0 : ℤ) ≤ (p.stock : ℤ) by omega)]
      rw [if_neg hd]
      exact (decide_eq_true (by omega)).symm
  constructor
  · rw [key]
    simp only [decide_eq_false_iff_not, not_le]
  · intro hpos
    rw [key]
    simp only [decide_eq_true_eq]
    omega

/-- Product for the C5 witness. -/
def c5WitnessProduct : Product := { name := "Widget", stock := 5 }

/-- Product map for the C5 witness. -/
def c5WitnessProducts : ProductMap :=
  fun pid => if pid = "p1" then some c5WitnessProduct else none

/-- C5 witness: the amended theorem applied to a decrement of 7 against a
stock of 5, which is rejected. -/
theorem c5_update_stock_guard_witness :
    ((update_stock c5WitnessProducts "p1" (-7)).2 = false ↔
      (c5WitnessProduct.stock : ℤ) + (-7) < 0) ∧
    (0 < (-7 : ℤ) → (update_stock c5WitnessProducts "p1" (-7)).2 = true) :=
  c5_update_stock_guard c5WitnessProducts "p1" (-7) c5WitnessProduct
    (by decide) (by decide)

/-- Re-fetching after `update_status` sees the first matching document
with the `$set` applied. -/
theorem findOrder_repo_update_status (orders : OrderList) (oid : String)
    (st : OrderStatus) (now : ℕ) :
    findOrder (repo_update_status orders oid st now) oid
      = (findOrder orders oid).map (fun o => Order.set_status_doc o st now) := by
  induction orders with
  | nil => rfl
  | cons e rest ih =>
    obtain ⟨k, o⟩ := e
    by_cases hk : k = oid
    · simp [repo_update_status, findOrder, hk]
    · simp [repo_update_status, findOrder, hk, ih]

/-- C7: `update_order_status` on an order in OutForDelivery with target
Delivered succeeds and the returned order has a non-null `delivered_at`;
on an order in Processing with target Delivered it fails with
`ValidationError` and leaves the database (hence the order's status)
unchanged. -/
theorem c7_update_status_delivery (db : DB) (oid : String) (now : ℕ)
    (order : Order) (hfind : findOrder db.orders oid = some order) :
    (order.order_status = OrderStatus.outForDelivery →
      ∃ updated, (update_order_status db oid OrderStatus.delivered now).2
          = .ok updated ∧
        updated.order_status = OrderStatus.delivered ∧
        updated.delivered_at = some now) ∧
    (order.order_status = OrderStatus.processing →
      (update_order_status db oid OrderStatus.delivered now).1 = db ∧
      ∃ msg, (update_order_status db oid OrderStatus.delivered now).2
          = .error (.validation msg)) := by
  constructor
  · intro hofd
    unfold update_order_status
    rw [hfind]
    dsimp only
    rw [if_neg (show ¬¬(OrderStatus.can_transition_to order.order_status
        OrderStatus.delivered = true) by rw [hofd]; decide)]
    rw [findOrder_repo_update_status, hfind]
    refine ⟨Order.set_status_doc order OrderStatus.delivered now, rfl, ?_, ?_⟩ <;>
      simp [Order.set_status_doc]
  · intro hproc
    unfold update_order_status
    rw [hfind]
    dsimp only
    rw [if_pos (show ¬(OrderStatus.can_transition_to order.order_status
        OrderStatus.delivered = true) by rw [hproc]; decide)]
    exact ⟨rfl, _, rfl⟩

/-- Order in OutForDelivery for the C7 witness. -/
def c7Order : Order := { sampleOrder with order_status := .outForDelivery }

/-- Database for the C7 witness. -/
def c7Db : DB := ⟨fun _ => none, [("o1", c7Order)]⟩

/-- C7 witness: the theorem applied to a concrete OutForDelivery order
(the Processing implication holds vacuously there). -/
theorem c7_update_status_delivery_witness :
    (c7Order.order_status = OrderStatus.outForDelivery →
      ∃ updated, (update_order_status c7Db "o1" OrderStatus.delivered 55).2
          = .ok updated ∧
        updated.order_status = OrderStatus.delivered ∧
        updated.delivered_at = some 55) ∧
    (c7Order.order_status = OrderStatus.processing →
      (update_order_status c7Db "o1" OrderStatus.delivered 55).1 = c7Db ∧
      ∃ msg, (update_order_status c7Db "o1" OrderStatus.delivered 55).2
          = .error (.validation msg)) :=
  c7_update_status_delivery c7Db "o1" 55 c7Order (by decide)

/-- Changing only the caller-supplied `items_price` (within the accepted
non-negative range) does not change what `Order.construct` returns:
`calculate_totals` overwrites it. -/
theorem construct_items_price_irrelevant (user : String) (ship : ShippingInfo)
    (items : List OrderItem) (v1 v2 tp sp tot : ℚ) (pinfo : Option PaymentInfo)
    (pa da : Option ℕ) (st : OrderStatus) (ca : ℕ)
    (h1 : 0 ≤ v1) (h2 : 0 ≤ v2) :
    Order.construct user ship items v1 tp sp tot pinfo pa da st ca
      = Order.construct user ship items v2 tp sp tot pinfo pa da st ca := by
  unfold Order.construct
  by_cases hlen : items.length < 1
  · rw [if_pos hlen, if_pos hlen]
  · rw [if_neg hlen, if_neg hlen]
    rw [if_neg (not_lt.mpr h1), if_neg (not_lt.mpr h2)]
    by_cases htp : tp < 0
    · rw [if_pos htp, if_pos htp]
    · rw [if_neg htp, if_neg htp]
      by_cases hsp : sp < 0
      · rw [if_pos hsp, if_pos hsp]
      · rw [if_neg hsp, if_neg hsp]
        by_cases htot : tot < 0
        · rw [if_pos htot, if_pos htot]
        · rw [if_neg htot, if_neg htot]
          have hne : items.isEmpty = false := by
            cases items with
            | nil => exact absurd (by simp) hlen
            | cons a l => rfl
          simp [Order.calculate_totals, hne]

/-- C9: the caller-supplied `items_price` does not affect `create_order`
at all (for values the request schema accepts, i.e. non-negative ones):
two calls differing only in that argument return identical database
states and identical orders, because `calculate_totals` overwrites
`items_price` with the sum of line-item subtotals and `total_price` with
that sum plus `tax_price` plus `shipping_price`.  (No caller-supplied
`total_price` exists: neither the service nor the request schema takes
one.) -/
theorem c9_items_price_no_influence (db : DB) (user_id : String)
    (ship : ShippingInput) (items : List CreateItem) (v1 v2 tp sp : ℚ)
    (pay : PaymentInfo) (oid : String) (now : ℕ)
    (h1 : 0 ≤ v1) (h2 : 0 ≤ v2) :
    create_order db user_id ship items v1 tp sp pay oid now
      = create_order db user_id ship items v2 tp sp pay oid now := by
  unfold create_order
  cases hv : validate_stock db.products items with
  | error e => rfl
  | ok u =>
    cases hs : ShippingInfo.construct ship.address ship.city ship.country
        ship.postal_code ship.phone_no with
    | error e => rfl
    | ok shipping =>
      cases hb : build_order_items items with
      | error e => rfl
      | ok its =>
        dsimp only
        rw [construct_items_price_irrelevant user_id shipping its v1 v2 tp sp 0
          (some pay) (if pay.status = "succeeded" then some now else none) none
          OrderStatus.processing now h1 h2]

/-- Product map for the C9 witness: one product with ample stock. -/
def c9WitnessProducts : ProductMap :=
  fun pid => if pid = "p1" then some { name := "Widget", stock := 10 } else none

/-- C9 witness: a concrete call with `items_price = 999` equals the same
call with `items_price = 5`. -/
theorem c9_items_price_no_influence_witness :
    create_order ⟨c9WitnessProducts, []⟩ "u1" sampleShippingInput [c2Item] 999 1 2
        samplePayment "o1" 3
      = create_order ⟨c9WitnessProducts, []⟩ "u1" sampleShippingInput [c2Item] 5 1 2
        samplePayment "o1" 3 :=
  c9_items_price_no_influence ⟨c9WitnessProducts, []⟩ "u1" sampleShippingInput
    [c2Item] 999 5 1 2 samplePayment "o1" 3 (by decide) (by decide)

/-- An item that passes the stock-validation pass: its product exists and
has stock at least the requested quantity. -/
def stock_sufficient (products : ProductMap) (item : CreateItem) : Bool :=
  match products item.product with
  | none => false
  | some p => decide (item.quantity ≤ p.stock)

/-- `stock_sufficient` only looks at the item's own product entry. -/
theorem stock_sufficient_congr (products products' : ProductMap)
    (x : CreateItem) (h : products' x.product = products x.product) :
    stock_sufficient products' x = stock_sufficient products x := by
  unfold stock_sufficient
  rw [h]

/-- If every item passes the stock check, the validation loop succeeds. -/
theorem validate_stock_ok (products : ProductMap) (items : List CreateItem)
    (h : ∀ item ∈ items, stock_sufficient products item = true) :
    validate_stock products items = .ok () := by
  induction items with
  | nil => rfl
  | cons i rest ih =>
    have hi := h i (List.mem_cons_self i rest)
    unfold stock_sufficient at hi
    unfold validate_stock
    cases hp : products i.product with
    | none => rw [hp] at hi; cases hi
    | some p =>
      rw [hp] at hi
      simp only [decide_eq_true_eq] at hi
      dsimp only
      rw [if_neg (by omega)]
      exact ih (fun x hx => h x (List.mem_cons_of_mem i hx))

/-- The `OrderItem` the service builds from one request item. -/
def toOrderItem (item : CreateItem) : OrderItem :=
  { product := item.product, name := item.name, price := item.price,
    quantity := item.quantity, image := item.image }

/-- When every request item satisfies the pydantic field constraints
(integer price `≥ 0`, quantity `≥ 1`), the item construction loop
succeeds and yields the per-item snapshots. -/
theorem build_order_items_ok (items : List CreateItem)
    (h : ∀ item ∈ items,
      item.price.den = 1 ∧ 0 ≤ item.price ∧ 1 ≤ item.quantity) :
    build_order_items items = .ok (items.map toOrderItem) := by
  induction items with
  | nil => rfl
  | cons i rest ih =>
    obtain ⟨hd, hp, hq⟩ := h i (List.mem_cons_self i rest)
    unfold build_order_items OrderItem.construct
    rw [if_neg (not_not_intro hd), if_neg (not_lt.mpr hp),
        if_neg (show ¬ i.quantity < 1 by omega)]
    dsimp only
    rw [ih (fun x hx => h x (List.mem_cons_of_mem i hx))]
    rfl

/-- When all five shipping fields are non-empty after stripping, the
pydantic `ShippingInfo` construction succeeds with the stripped entity. -/
theorem shipping_construct_ok (s : ShippingInput)
    (h : s.fields_nonempty = true) :
    ShippingInfo.construct s.address s.city s.country s.postal_code s.phone_no
      = .ok s.toShippingInfo := by
  unfold ShippingInput.fields_nonempty at h
  simp only [Bool.and_eq_true, decide_eq_true_eq] at h
  obtain ⟨⟨⟨⟨h1, h2⟩, h3⟩, h4⟩, h5⟩ := h
  unfold ShippingInfo.construct ShippingInput.toShippingInfo
  rw [if_neg (by omega), if_neg (by omega), if_neg (by omega),
      if_neg (by omega), if_neg (by omega)]

/-- The stock-reduction loop leaves products it never mentions alone. -/
theorem reduce_stock_not_mem (products : ProductMap) (items : List CreateItem)
    (q : String) (h : q ∉ items.map CreateItem.product) :
    reduce_stock products items q = products q := by
  induction items generalizing products with
  | nil => rfl
  | cons i rest ih =>
    have hq : q ≠ i.product := by
      intro he
      exact h (by simp [he])
    have hrest : q ∉ rest.map CreateItem.product := by
      intro hmem
      exact h (by simp [hmem])
    have hstep : reduce_stock products (i :: rest)
        = reduce_stock (update_stock products i.product (-(i.quantity : ℤ))).1
          rest := rfl
    rw [hstep, ih _ hrest]
    exact update_stock_other products i.product _ q hq

/-- The stock-reduction loop over items with pairwise-distinct products,
each in stock: every mentioned product ends with its stock decreased by
exactly the ordered quantity. -/
theorem reduce_stock_spec (items : List CreateItem) (products : ProductMap)
    (hnodup : (items.map CreateItem.product).Nodup)
    (hstock : ∀ item ∈ items, stock_sufficient products item = true) :
    ∀ item ∈ items, ∃ p, products item.product = some p ∧
      reduce_stock products items item.product
        = some { p with stock := p.stock - item.quantity } := by
  induction items generalizing products with
  | nil =>
    intro item hmem
    cases hmem
  | cons i rest ih =>
    have hnotin : i.product ∉ rest.map CreateItem.product :=
      (List.nodup_cons.mp hnodup).1
    have hnodup' : (rest.map CreateItem.product).Nodup :=
      (List.nodup_cons.mp hnodup).2
    have hi := hstock i (List.mem_cons_self i rest)
    unfold stock_sufficient at hi
    rcases hp : products i.product with _ | p
    · rw [hp] at hi; cases hi
    rw [hp] at hi
    simp only [decide_eq_true_eq] at hi
    have hstep : reduce_stock products (i :: rest)
        = reduce_stock (update_stock products i.product (-(i.quantity : ℤ))).1
          rest := rfl
    have hstock' : ∀ x ∈ rest,
        stock_sufficient
          (update_stock products i.product (-(i.quantity : ℤ))).1 x = true := by
      intro x hx
      have hxne : x.product ≠ i.product := fun he =>
        hnotin (he ▸ List.mem_map_of_mem CreateItem.product hx)
      rw [stock_sufficient_congr _ _ x
        (update_stock_other products i.product _ x.product hxne)]
      exact hstock x (List.mem_cons_of_mem i hx)
    intro item hmem
    rcases List.mem_cons.mp hmem with rfl | hmem'
    · refine ⟨p, hp, ?_⟩
      rw [hstep, reduce_stock_not_mem _ _ _ hnotin]
      exact update_stock_dec products item.product p item.quantity hp hi
    · obtain ⟨p', hp', hred⟩ := ih _ hnodup' hstock' item hmem'
      have hne : item.product ≠ i.product := fun he =>
        hnotin (he ▸ List.mem_map_of_mem CreateItem.product hmem')
      refine ⟨p', ?_, ?_⟩
      · rw [← update_stock_other products i.product (-(i.quantity : ℤ))
          item.product hne]
        exact hp'
      · rw [hstep]
        exact hred

/-- `calculate_totals` only rewrites the two price totals. -/
theorem calculate_totals_order_status (o : Order) :
    (Order.calculate_totals o).order_status = o.order_status := by
  simp only [Order.calculate_totals]
  split <;> rfl

/-- `calculate_totals` does not touch `paid_at`. -/
theorem calculate_totals_paid_at (o : Order) :
    (Order.calculate_totals o).paid_at = o.paid_at := by
  simp only [Order.calculate_totals]
  split <;> rfl

/-- The order entity a successful `create_order` call builds and persists. -/
def built_order (user_id : String) (ship : ShippingInfo)
    (items : List CreateItem) (ip tp sp : ℚ) (pay : PaymentInfo) (now : ℕ) :
    Order :=
  Order.calculate_totals
    { user := user_id, shipping_info := ship,
      order_items := items.map toOrderItem, items_price := ip,
      tax_price := tp, shipping_price := sp, total_price := 0,
      payment_info := some pay,
      paid_at := if pay.status = "succeeded" then some now else none,
      delivered_at := none, order_status := OrderStatus.processing,
      created_at := now }

/-- Product map for the C3 counterexample: one product with stock 3. -/
def c3Products : ProductMap :=
  fun pid => if pid = "p1" then some { name := "Widget", stock := 3 } else none

/-- The request item of the C3 counterexample (quantity 2). -/
def c3Item : CreateItem :=
  { product := "p1", name := "Widget", price := 2, quantity := 2, image := "img" }

/-- C3 counterexample: with the same product requested twice (quantity 2
each against stock 3), every requested product exists with stock at least
each item's quantity, and the call succeeds — but the final stock is 1:
the first guarded decrement takes 3 to 1 and the second is silently
rejected, so the product is not decremented by its ordered quantity
(3 - 2 - 2 ≠ 1). -/
theorem c3_counterexample :
    resultIsOk (create_order ⟨c3Products, []⟩ "u1" sampleShippingInput
      [c3Item, c3Item] 8 0 0 samplePayment "o1" 0).2 = true ∧
    ((create_order ⟨c3Products, []⟩ "u1" sampleShippingInput [c3Item, c3Item] 8 0 0
        samplePayment "o1" 0).1.products "p1").map Product.stock = some 1 ∧
    (3 : ℤ) - 2 - 2 ≠ 1 := by
  decide

/-- C3 amended: for every `create_order` call whose requested products are
pairwise distinct, all existing with stock at least the requested
quantity — and whose request pydantic accepts: non-empty item list,
integer item prices `≥ 0`, quantities `≥ 1`, shipping fields non-empty
after whitespace stripping, non-negative price arguments — the call
succeeds, decrements each product's stock by exactly its ordered
quantity, persists the order, and returns an order whose status is
Processing and whose `paid_at` is set iff the supplied payment status is
"succeeded". -/
theorem c3_create_order_success (db : DB) (user_id : String)
    (ship : ShippingInput) (items : List CreateItem) (ip tp sp : ℚ)
    (pay : PaymentInfo) (oid : String) (now : ℕ)
    (hne : items ≠ [])
    (hnodup : (items.map CreateItem.product).Nodup)
    (hship : ship.fields_nonempty = true)
    (hvalid : ∀ item ∈ items,
      item.price.den = 1 ∧ 0 ≤ item.price ∧ 1 ≤ item.quantity)
    (hstock : ∀ item ∈ items, stock_sufficient db.products item = true)
    (hip : 0 ≤ ip) (htp : 0 ≤ tp) (hsp : 0 ≤ sp) :
    ∃ order, (create_order db user_id ship items ip tp sp pay oid now).2
        = .ok order ∧
      order.order_status = OrderStatus.processing ∧
      (order.paid_at ≠ none ↔ pay.status = "succeeded") ∧
      findOrder (create_order db user_id ship items ip tp sp pay oid
        now).1.orders oid = some order ∧
      ∀ item ∈ items, ∃ p, db.products item.product = some p ∧
        (create_order db user_id ship items ip tp sp pay oid now).1.products
          item.product = some { p with stock := p.stock - item.quantity } := by
  have hv := validate_stock_ok db.products items hstock
  have hs := shipping_construct_ok ship hship
  have hb := build_order_items_ok items hvalid
  have hlen : ¬ (items.map toOrderItem).length < 1 := by
    cases items with
    | nil => exact absurd rfl hne
    | cons a l => simp
  have hc : Order.construct user_id ship.toShippingInfo (items.map toOrderItem)
      ip tp sp 0 (some pay)
      (if pay.status = "succeeded" then some now else none) none
      OrderStatus.processing now
      = .ok (built_order user_id ship.toShippingInfo items ip tp sp pay now) := by
    unfold Order.construct built_order
    rw [if_neg hlen, if_neg (not_lt.mpr hip), if_neg (not_lt.mpr htp),
        if_neg (not_lt.mpr hsp), if_neg (lt_irrefl (0 : ℚ))]
  have heq : create_order db user_id ship items ip tp sp pay oid now
      = ({ products := reduce_stock db.products items,
           orders := (oid, built_order user_id ship.toShippingInfo items
             ip tp sp pay now) :: db.orders },
         .ok (built_order user_id ship.toShippingInfo items ip tp sp pay
           now)) := by
    unfold create_order
    rw [hv]
    dsimp only
    rw [hs]
    dsimp only
    rw [hb]
    dsimp only
    rw [hc]
  refine ⟨built_order user_id ship.toShippingInfo items ip tp sp pay now,
    ?_, ?_, ?_, ?_, ?_⟩
  · rw [heq]
  · unfold built_order
    rw [calculate_totals_order_status]
  · unfold built_order
    rw [calculate_totals_paid_at]
    dsimp only
    by_cases hst : pay.status = "succeeded" <;> simp [hst]
  · rw [heq]
    unfold findOrder
    rw [if_pos rfl]
  · intro item hmem
    obtain ⟨p, hp, hred⟩ :=
      reduce_stock_spec items db.products hnodup hstock item hmem
    refine ⟨p, hp, ?_⟩
    rw [heq]
    exact hred

/-- Product map for the C3 witness: two distinct products in stock. -/
def c3WitnessProducts : ProductMap :=
  fun pid =>
    if pid = "p1" then some { name := "Widget", stock := 5 }
    else if pid = "p2" then some { name := "Gadget", stock := 4 } else none

/-- Database for the C3 witness. -/
def c3WitnessDb : DB := ⟨c3WitnessProducts, []⟩

/-- First request item of the C3 witness. -/
def c3WitnessItemA : CreateItem :=
  { product := "p1", name := "Widget", price := 5, quantity := 3, image := "img" }

/-- Second request item of the C3 witness. -/
def c3WitnessItemB : CreateItem :=
  { product := "p2", name := "Gadget", price := 4, quantity := 4, image := "img" }

/-- C3 witness: the amended theorem applied to a concrete two-item order
over distinct products. -/
theorem c3_create_order_success_witness :
    ∃ order, (create_order c3WitnessDb "u1" sampleShippingInput
        [c3WitnessItemA, c3WitnessItemB] 31 1 2 samplePayment "o1" 9).2
        = .ok order ∧
      order.order_status = OrderStatus.processing ∧
      (order.paid_at ≠ none ↔ samplePayment.status = "succeeded") ∧
      findOrder (create_order c3WitnessDb "u1" sampleShippingInput
        [c3WitnessItemA, c3WitnessItemB] 31 1 2 samplePayment "o1" 9).1.orders
        "o1" = some order ∧
      ∀ item ∈ [c3WitnessItemA, c3WitnessItemB], ∃ p,
        c3WitnessDb.products item.product = some p ∧
        (create_order c3WitnessDb "u1" sampleShippingInput
          [c3WitnessItemA, c3WitnessItemB] 31 1 2 samplePayment "o1"
          9).1.products item.product
          = some { p with stock := p.stock - item.quantity } :=
  c3_create_order_success c3WitnessDb "u1" sampleShippingInput
    [c3WitnessItemA, c3WitnessItemB] 31 1 2 samplePayment "o1" 9
    (by decide) (by decide) (by decide) (by decide) (by decide) (by decide)
    (by decide) (by decide)

/-- Total quantity the order's items request for one product id. -/
def restored_qty (items : List OrderItem) (q : String) : ℕ :=
  ((items.filter (fun i => decide (i.product = q))).map OrderItem.quantity).sum

/-- The stock-restoration loop of `cancel_order`: every existing product
ends with its stock increased by the total quantity the order's items
carry for it (increments always pass the non-negativity guard). -/
theorem restore_stock_spec (items : List OrderItem) (products : ProductMap) :
    ∀ q p, products q = some p →
      restore_stock products items q
        = some { p with stock := p.stock + restored_qty items q } := by
  induction items generalizing products with
  | nil =>
    intro q p hp
    exact hp
  | cons i rest ih =>
    intro q p hp
    have hstep : restore_stock products (i :: rest)
        = restore_stock (update_stock products i.product (i.quantity : ℤ)).1
          rest := rfl
    rw [hstep]
    by_cases hq : q = i.product
    · subst hq
      have h1 := update_stock_inc products i.product p i.quantity hp
      rw [ih _ i.product _ h1]
      have hq2 : restored_qty (i :: rest) i.product
          = i.quantity + restored_qty rest i.product := by
        unfold restored_qty
        rw [List.filter_cons_of_pos (by simp)]
        simp
      rw [hq2]
      show some (Product.mk p.name
          (p.stock + i.quantity + restored_qty rest i.product))
        = some (Product.mk p.name
          (p.stock + (i.quantity + restored_qty rest i.product)))
      rw [Nat.add_assoc]
    · have h1 : (update_stock products i.product (i.quantity : ℤ)).1 q
          = products q :=
        update_stock_other products i.product _ q hq
      rw [ih _ q p (h1.trans hp)]
      have hq2 : restored_qty (i :: rest) q = restored_qty rest q := by
        unfold restored_qty
        rw [List.filter_cons_of_neg (by
          simp only [decide_eq_true_eq]
          exact fun he => hq he.symm)]
      rw [hq2]

/-- C4: a `cancelOrder` call by the order's owner on an order in a
cancellable status (Processing, Confirmed or Shipped — in particular
Shipped) succeeds, increments each existing ordered product's stock by
exactly the ordered quantity, and sets the order's status to Cancelled;
on an order in a non-cancellable status (in particular Delivered) it
fails with `ValidationError` and leaves every product's stock and the
order's status unchanged. -/
theorem c4_cancel_order (db : DB) (order_id user_id : String) (now : ℕ)
    (order : Order) (hfind : findOrder db.orders order_id = some order)
    (howner : order.user = user_id) :
    (order.order_status.is_cancellable = true →
      ∃ updated, (cancel_order db order_id user_id now).2 = .ok updated ∧
        updated.order_status = OrderStatus.cancelled ∧
        ∀ q p, db.products q = some p →
          (cancel_order db order_id user_id now).1.products q
            = some { p with stock := p.stock
                + restored_qty order.order_items q }) ∧
    (order.order_status.is_cancellable = false →
      (cancel_order db order_id user_id now).1 = db ∧
      ∃ msg, (cancel_order db order_id user_id now).2
          = .error (.validation msg)) := by
  constructor
  · intro hcan
    unfold cancel_order
    rw [hfind]
    dsimp only
    rw [if_neg (show ¬ order.user ≠ user_id from fun hne => hne howner)]
    rw [if_neg (show ¬¬(order.order_status.is_cancellable = true)
      from not_not_intro hcan)]
    rw [findOrder_repo_update_status, hfind]
    refine ⟨Order.set_status_doc order OrderStatus.cancelled now, rfl, ?_, ?_⟩
    · simp [Order.set_status_doc]
    · intro q p hp
      exact restore_stock_spec order.order_items db.products q p hp
  · intro hcan
    unfold cancel_order
    rw [hfind]
    dsimp only
    rw [if_neg (show ¬ order.user ≠ user_id from fun hne => hne howner)]
    rw [if_pos (show ¬(order.order_status.is_cancellable = true)
      by rw [hcan]; decide)]
    exact ⟨rfl, _, rfl⟩

/-- Order in Shipped for the C4 witness (owned by "u1", one item of
quantity 2 for product "p1"). -/
def c4Order : Order := { sampleOrder with order_status := .shipped }

/-- Database for the C4 witness: the Shipped order plus a product map
holding "p1" with stock 5. -/
def c4Db : DB := ⟨c5WitnessProducts, [("o9", c4Order)]⟩

/-- C4 witness: the theorem applied to a concrete Shipped order (the
non-cancellable implication holds vacuously there). -/
theorem c4_cancel_order_witness :
    (c4Order.order_status.is_cancellable = true →
      ∃ updated, (cancel_order c4Db "o9" "u1" 77).2 = .ok updated ∧
        updated.order_status = OrderStatus.cancelled ∧
        ∀ q p, c4Db.products q = some p →
          (cancel_order c4Db "o9" "u1" 77).1.products q
            = some { p with stock := p.stock
                + restored_qty c4Order.order_items q }) ∧
    (c4Order.order_status.is_cancellable = false →
      (cancel_order c4Db "o9" "u1" 77).1 = c4Db ∧
      ∃ msg, (cancel_order c4Db "o9" "u1" 77).2
          = .error (.validation msg)) :=
  c4_cancel_order c4Db "o9" "u1" 77 c4Order (by decide) (by decide)

end ECom
